import Mathlib

/-!
Verification development for the `Trailer_Campaign` rollout planner
(`src/planners/rollout_planner.py`, class `RolloutPlanner`).

Modelling conventions (shallow embedding):
* Calendar datetimes are modelled as integers counting days (midnight-aligned);
  `timedelta(weeks = w)` is `7 * w` days.  The `strftime('%Y-%m-%d')` /
  `strptime` round-trip used when a phase start is stored and re-parsed is the
  identity on such day numbers, so phase records carry the day number directly.
* Python floats are modelled as exact rationals (`ℚ`).  Python `round` is
  round-half-to-even (banker's rounding), `int(...)` truncates toward zero,
  `//` is floor division (all operands where it occurs here are nonnegative).
* The `try: datetime.strptime(release_date, '%Y-%m-%d') except:` block is
  modelled by passing the parse outcome as an `Option ℤ` (`none` = the string
  does not parse as `YYYY-MM-DD`), with the `now + 60` day fallback applied
  exactly as in the source.
* `datetime.now()` is modelled as a day number parameter `now`.
* Loosely typed dict fields (`popularity`, `budget`, `vote_count`) are
  modelled by `PyNumField`, which distinguishes a missing key, `None`, a
  number, and a string; a string constructor carries the outcome of Python
  `float(...)` / `int(...)` on it (`none` = `ValueError`).
* The free-text rationale log built by `_derive_campaign_parameters` is kept
  as structured entries (one constructor per `append` site, carrying the
  numeric data interpolated into the message); the surrounding English
  phrasing and number formatting are presentation only (spec §9 declares the
  phrasing a non-contract).
-/

namespace TrailerCampaign

/-- Python `round(q)`: round half to even (banker's rounding), as applied to
the exact rational value. -/
def pyRound (q : ℚ) : ℤ :=
  if q - ⌊q⌋ < 1/2 then ⌊q⌋
  else if 1/2 < q - ⌊q⌋ then ⌊q⌋ + 1
  else if 2 ∣ ⌊q⌋ then ⌊q⌋ else ⌊q⌋ + 1

/-- Python `int(q)` on a number: truncation toward zero. -/
def pyInt (q : ℚ) : ℤ := if q < 0 then ⌈q⌉ else ⌊q⌋

/-- Python `round(q, 2)`: round to two decimal places, half to even. -/
def round2 (q : ℚ) : ℚ := (pyRound (q * 100) : ℚ) / 100

/-- Python `round(q, 1)`: round to one decimal place, half to even. -/
def round1 (q : ℚ) : ℚ := (pyRound (q * 10) : ℚ) / 10

/-- A loosely typed numeric field of the movie-profile dict.  `pyStr` carries
the outcome of Python `float(s)` (`asFloat`) and `int(s)` (`asInt`) on the
string, `none` meaning the conversion raises `ValueError`. -/
inductive PyNumField
  | missing
  | pyNone
  | pyNum (q : ℚ)
  | pyStr (s : String) (asFloat : Option ℚ) (asInt : Option ℤ)
deriving DecidableEq

/-- `float(movie_profile.get('popularity', 45) or 45)` guarded by
`except (TypeError, ValueError): popularity = 45.0`
(rollout_planner.py lines 430-433). -/
def coercePopularity : PyNumField → ℚ
  | .missing => 45
  | .pyNone => 45
  | .pyNum q => if q = 0 then 45 else q
  | .pyStr s f _ =>
      if s = "" then 45
      else match f with
        | some q => q
        | none => 45

/-- `float(movie_profile.get('budget') or 0)` guarded by
`except (TypeError, ValueError): production_budget = 0.0`
(rollout_planner.py lines 435-438). -/
def coerceBudget : PyNumField → ℚ
  | .missing => 0
  | .pyNone => 0
  | .pyNum q => q
  | .pyStr s f _ =>
      if s = "" then 0
      else match f with
        | some q => q
        | none => 0

/-- `int(movie_profile.get('vote_count') or 0)` guarded by
`except (TypeError, ValueError): vote_count = 0`
(rollout_planner.py lines 504-507). -/
def coerceVoteCount : PyNumField → ℤ
  | .missing => 0
  | .pyNone => 0
  | .pyNum q => pyInt q
  | .pyStr s _ i =>
      if s = "" then 0
      else match i with
        | some n => n
        | none => 0

/-- A region tier.  The Region Ranking Provider contract (spec §6) guarantees
the `tier` field is one of the strings `'A'`, `'B'`, `'C'`, which the planner
compares for equality; we model the enumeration directly. -/
inductive Tier
  | A
  | B
  | C
deriving DecidableEq

/-- One entry of `comparison['ranked_regions']` as consumed by the planner:
`region`, `total_score`, `tier`, `suggested_budget_pct`, `recommendation`. -/
structure RegionScore where
  region : String
  total_score : ℚ
  tier : Tier
  suggested_budget_pct : ℚ
  recommendation : String
deriving DecidableEq

/-- The regional comparison consumed by `create_rollout_plan`: either the
`precomputed_comparison` argument or the output of
`RegionalScorer.compare_regions`; only `ranked_regions` and
`recommendations` are read. -/
structure RegionComparison where
  ranked_regions : List RegionScore
  recommendations : List String
deriving DecidableEq

/-- Modelled from the spec: the Region Ranking Provider
(`src/analyzers/regional_scorer.py`, an external collaborator whose source is
not part of the verified core) "yields an empty ranked-region sequence" for
missing or malformed region data (spec §7), so
`compare_regions({})` — the call made when `regional_data` is `None` —
produces a comparison with no ranked regions. -/
def compareRegionsEmpty : RegionComparison :=
  { ranked_regions := [], recommendations := [] }

/-- A genre or cast entry: either a plain string or a name-bearing record
(a dict with an optional truthy `name`), per the tagged-union reading of the
loosely typed metadata (spec §9). -/
inductive NameEntry
  | plain (s : String)
  | named (name : Option String)
deriving DecidableEq

/-- The `directors` / `director` field: absent (or falsy), a single string,
a single name-bearing record, or a list of strings. -/
inductive DirectorsField
  | missing
  | one (s : String)
  | entity (name : Option String)
  | many (names : List String)
deriving DecidableEq

/-- Movie metadata as read by the planner. -/
structure MovieProfile where
  title : Option String
  genres : List NameEntry
  cast : List NameEntry
  directors : DirectorsField
  tagline : Option String
  popularity : PyNumField
  budget : PyNumField
  vote_count : PyNumField
deriving DecidableEq

/-- `movie_profile.get('popularity', 45)`-style field access through the
optional profile (`movie_profile or {}` makes a missing profile read as a
dict with no keys). -/
def profilePopularity : Option MovieProfile → PyNumField
  | none => .missing
  | some p => p.popularity

def profileBudget : Option MovieProfile → PyNumField
  | none => .missing
  | some p => p.budget

def profileVoteCount : Option MovieProfile → PyNumField
  | none => .missing
  | some p => p.vote_count

/-- One entry of the `duration_logic` list (rollout_planner.py lines 444-465),
keyed by which `append` fired, carrying the interpolated numeric data. -/
inductive DurationDriver
  | overridden (weeks : ℤ)
  | runwayBase (gapWeeks baseWeeks : ℤ)
  | sustainDefault
  | popularityHype (popularity : ℚ)
  | tierALocalization (count : ℕ)
  | tentpoleBuffer
deriving DecidableEq

/-- One entry of the `budget_logic` list (rollout_planner.py lines 468-511),
keyed by which `append` fired, carrying the interpolated numeric data. -/
inductive BudgetDriver
  | overridden (amount : ℤ)
  | marketingBaseline (share production : ℚ)
  | indieBaseline
  | hypePremium (popularity factor : ℚ)
  | tierWeighting (tierA tierB : ℕ) (factor : ℚ)
  | demandLift (index factor : ℚ)
  | fanbaseBoost (votes : ℤ) (factor : ℚ)
deriving DecidableEq

/-- The `logic.signals` snapshot (rollout_planner.py lines 528-534). -/
structure PlanSignals where
  tier_a_markets : ℕ
  tier_b_markets : ℕ
  interest_index : ℚ
  popularity : ℚ
  release_gap_weeks : ℤ
deriving DecidableEq

/-- The structured content of the `logic` record returned by
`_derive_campaign_parameters` (prose summaries are presentation only). -/
structure PlanLogic where
  budget_drivers : List BudgetDriver
  duration_drivers : List DurationDriver
  signals : PlanSignals
deriving DecidableEq

/-- The result of `_derive_campaign_parameters`. -/
structure CampaignParameters where
  total_budget : ℤ
  campaign_weeks : ℤ
  logic : PlanLogic
deriving DecidableEq

/-- The marketing-ratio ladder (rollout_planner.py lines 474-481). -/
def marketingRatio (production_budget : ℚ) : ℚ :=
  if production_budget ≥ 150000000 then 0.4
  else if production_budget ≥ 75000000 then 0.32
  else if production_budget ≥ 25000000 then 0.25
  else 0.18

/-- `_derive_campaign_parameters` (rollout_planner.py lines 415-541).
The Python interleaves value updates (`campaign_weeks += 1`,
`base_budget *= factor`) with log appends on separate statements; the model
computes the value chain and the log list from the same conditions. -/
def deriveCampaignParameters (movieProfile : Option MovieProfile)
    (regionalSummary : Option RegionComparison)
    (overrideBudget : Option ℚ) (overrideDuration : Option ℤ)
    (release_dt now : ℤ) : CampaignParameters :=
  let ranked := match regionalSummary with
    | some c => c.ranked_regions
    | none => []
  let tier_a_count := (ranked.filter (fun r => r.tier == Tier.A)).length
  let tier_b_count := (ranked.filter (fun r => r.tier == Tier.B)).length
  let top_scores := (ranked.map (fun r => r.total_score)).take 3
  let interest_index : ℚ :=
    if top_scores = [] then 0.55
    else top_scores.sum / (top_scores.length : ℚ) / 100
  let popularity := coercePopularity (profilePopularity movieProfile)
  let production_budget := coerceBudget (profileBudget movieProfile)
  let release_gap_days : ℤ := max 0 (release_dt - now)
  let release_gap_weeks : ℤ :=
    if release_gap_days = 0 then 0 else ⌈(release_gap_days : ℚ) / 7⌉
  -- Duration logic (lines 444-465)
  let base_weeks : ℤ :=
    if release_gap_weeks > 0 then min (max release_gap_weeks 4) 16 else 6
  let campaign_weeks : ℤ :=
    match overrideDuration with
    | some d => max 1 d
    | none =>
      max 4 (min (base_weeks
        + (if popularity ≥ 70 then 1 else 0)
        + (if tier_a_count ≥ 3 then 1 else 0)
        + (if production_budget ≥ 150000000 then 1 else 0)) 16)
  let duration_drivers : List DurationDriver :=
    match overrideDuration with
    | some d => [.overridden (max 1 d)]
    | none =>
      (if release_gap_weeks > 0 then [.runwayBase release_gap_weeks base_weeks]
       else [.sustainDefault])
      ++ (if popularity ≥ 70 then [.popularityHype popularity] else [])
      ++ (if tier_a_count ≥ 3 then [.tierALocalization tier_a_count] else [])
      ++ (if production_budget ≥ 150000000 then [.tentpoleBuffer] else [])
  -- Budget logic (lines 468-514)
  let vote_count := coerceVoteCount (profileVoteCount movieProfile)
  let pop_score := max 0 (min popularity 100)
  let popularity_factor := 1 + (pop_score / 100) * 0.35
  let tier_factor : ℚ :=
    1 + ((min tier_a_count 4 : ℕ) : ℚ) * 0.08 + ((min tier_b_count 4 : ℕ) : ℚ) * 0.03
  let interest_factor := 1 + max 0 (interest_index - 0.55) * 0.5
  let audience_factor : ℚ := 1 + min ((vote_count : ℚ) / 50000) 1 * 0.15
  let base_budget : ℚ :=
    (if production_budget > 0 then production_budget * marketingRatio production_budget
     else 350000)
    * popularity_factor * tier_factor * interest_factor
    * (if vote_count ≠ 0 then audience_factor else 1)
  let computed_budget := max 250000 (min base_budget 20000000)
  let total_budget_value : ℤ :=
    match overrideBudget with
    | some b => pyInt b
    | none => max 250000 (pyRound (computed_budget / 50000) * 50000)
  let budget_drivers : List BudgetDriver :=
    match overrideBudget with
    | some b => [.overridden (pyInt b)]
    | none =>
      (if production_budget > 0 then
        [.marketingBaseline (marketingRatio production_budget) production_budget]
       else [.indieBaseline])
      ++ (if pop_score ≠ 0 then [.hypePremium popularity popularity_factor] else [])
      ++ [.tierWeighting tier_a_count tier_b_count tier_factor]
      ++ [.demandLift interest_index interest_factor]
      ++ (if vote_count ≠ 0 then [.fanbaseBoost vote_count audience_factor] else [])
  { total_budget := total_budget_value,
    campaign_weeks := campaign_weeks,
    logic := {
      budget_drivers := budget_drivers,
      duration_drivers := duration_drivers,
      signals := {
        tier_a_markets := tier_a_count,
        tier_b_markets := tier_b_count,
        interest_index := round1 (interest_index * 100),
        popularity := round1 popularity,
        release_gap_weeks := release_gap_weeks } } }

/-- The positioning record produced by `_extract_movie_signature`
(rollout_planner.py lines 543-634). -/
structure MovieSignature where
  title : String
  primary_genre : String
  genre_focus : String
  hook : String
  lead : String
  tagline : String
  audience_callout : String
  supporting : List String
deriving DecidableEq

/-- The fixed `genre_focus_map` (rollout_planner.py lines 567-579). -/
def genreFocusMap : List (String × String) :=
  [("Action", "high-impact action beats"),
   ("Adventure", "world-building spectacle"),
   ("Science Fiction", "immersive sci-fi worldbuilding"),
   ("Fantasy", "mythic fantasy imagery"),
   ("Animation", "signature animation style"),
   ("Drama", "character-driven drama"),
   ("Comedy", "sharp comedic timing"),
   ("Horror", "edge-of-seat suspense"),
   ("Thriller", "white-knuckle thrills"),
   ("Romance", "sweeping romantic stakes"),
   ("Documentary", "truth-first storytelling")]

/-- The fixed `audience_map` (rollout_planner.py lines 582-594). -/
def audienceMap : List (String × String) :=
  [("Action", "action seekers"),
   ("Adventure", "genre fans"),
   ("Science Fiction", "sci-fi faithful"),
   ("Fantasy", "fantasy fandoms"),
   ("Animation", "family audiences"),
   ("Drama", "prestige audiences"),
   ("Comedy", "comedy lovers"),
   ("Horror", "thrill seekers"),
   ("Thriller", "thriller fans"),
   ("Romance", "date-night audiences"),
   ("Documentary", "non-fiction fans")]

/-- Genre list handling (rollout_planner.py lines 562-565): if the first
entry is a record, keep the truthy names of the record entries; the primary
genre is the first remaining entry, defaulting to `'Event'`. -/
def primaryGenreOf (genres : List NameEntry) : String :=
  match genres with
  | [] => "Event"
  | .plain s :: _ => s
  | .named _ :: _ =>
      let names := genres.filterMap (fun e =>
        match e with
        | .named (some nm) => if nm = "" then none else some nm
        | _ => none)
      match names with
      | [] => "Event"
      | g :: _ => g

/-- Cast normalization (rollout_planner.py lines 597-605): record entries
contribute their `name`, plain entries their string form, and falsy names
are dropped. -/
def castNamesOf (entries : List NameEntry) : List String :=
  entries.filterMap (fun e =>
    match e with
    | .named (some nm) => if nm = "" then none else some nm
    | .named none => none
    | .plain s => if s = "" then none else some s)

/-- Director normalization (rollout_planner.py lines 609-613): a record
becomes the one-element list of its (possibly missing) name, a string its
one-element list, a list stays as is. -/
def directorNamesOf : DirectorsField → List (Option String)
  | .missing => []
  | .one s => [some s]
  | .entity nm => [nm]
  | .many names => names.map some

/-- `_extract_movie_signature` (rollout_planner.py lines 543-634). -/
def extractMovieSignature (movieProfile : Option MovieProfile) : MovieSignature :=
  match movieProfile with
  | none =>
    { title := "This film",
      primary_genre := "Event",
      genre_focus := "cinematic spectacle",
      hook := "Fan-favorite moments",
      lead := "the ensemble cast",
      tagline := "",
      audience_callout := "fans",
      supporting := [] }
  | some p =>
    let title := match p.title with
      | some t => if t = "" then "This film" else t
      | none => "This film"
    let primary_genre := primaryGenreOf p.genres
    let genre_focus :=
      match genreFocusMap.lookup primary_genre with
      | some t => t
      | none => primary_genre.toLower ++ " energy"
    let audience_callout :=
      match audienceMap.lookup primary_genre with
      | some t => t
      | none => primary_genre.toLower ++ " fans"
    let cast_names := castNamesOf p.cast
    let supporting := (cast_names.drop 1).take 2
    let directors := directorNamesOf p.directors
    -- `lead = cast_names[0] if cast_names else None`, then
    -- `if directors and not lead: lead = directors[0]`
    let leadOpt : Option String :=
      match cast_names with
      | l :: _ => some l
      | [] =>
        match directors with
        | d :: _ => d
        | [] => none
    let tagline := match p.tagline with
      | some t => t
      | none => ""
    let hook :=
      if tagline ≠ "" then tagline
      else match leadOpt with
        | some l =>
            if l ≠ "" then l ++ "\x27s " ++ primary_genre.toLower ++ " turn"
            else "fan-favorite " ++ primary_genre.toLower ++ " moments"
        | none => "fan-favorite " ++ primary_genre.toLower ++ " moments"
    { title := title,
      primary_genre := primary_genre,
      genre_focus := genre_focus,
      hook := hook,
      lead := match leadOpt with
        | some l => if l = "" then "the ensemble cast" else l
        | none => "the ensemble cast",
      tagline := tagline,
      audience_callout := audience_callout,
      supporting := supporting }

/-- One phase record (rollout_planner.py `_create_phases`); `start_date` is
the day number whose `'%Y-%m-%d'` rendering the source stores. -/
structure Phase where
  phase : ℕ
  name : String
  start_date : ℤ
  duration_weeks : ℤ
  regions : List String
  intensity : String
  focus : String
  budget_percentage : ℤ
  movie_hook : String
deriving DecidableEq

/-- The local `_offset` helper (rollout_planner.py lines 127-132). -/
def offsetFor (total_weeks : ℤ) (multiplier : ℚ) ( min_week : ℤ) : ℤ :=
  if total_weeks ≤ min_week then max 0 (total_weeks - 1)
  else min (total_weeks - 1) (max min_week (pyRound ((total_weeks : ℚ) * multiplier)))

/-- The normalization loop over `ordered_keys` (rollout_planner.py lines
150-158): each tier weight is rounded to an integer share of 100, except that
the last entry receives `100 - running_total`. -/
def assignPcts (total_weight : ℤ) : List (Tier × ℤ) → ℤ → List (Tier × ℤ)
  | [], _ => []
  | [(k, _)], running_total => [(k, 100 - running_total)]
  | (k, w) :: e :: rest, running_total =>
      let pct := pyRound ((w : ℚ) / (total_weight : ℚ) * 100)
      (k, pct) :: assignPcts total_weight (e :: rest) (running_total + pct)

/-- The `weight_map` entries in `'A', 'B', 'C'` order (rollout_planner.py
lines 141-147), present only for tiers with at least one region. -/
def phaseWeightEntries (nA nB nC : ℕ) : List (Tier × ℤ) :=
  (if nA ≠ 0 then [(Tier.A, 40 + ((min (nA * 4) 20 : ℕ) : ℤ))] else []) ++
  (if nB ≠ 0 then [(Tier.B, 30 + ((min (nB * 3) 15 : ℕ) : ℤ))] else []) ++
  (if nC ≠ 0 then [(Tier.C, 20 + ((min (nC * 2) 10 : ℕ) : ℤ))] else [])

/-- The local `_phase_duration` helper (rollout_planner.py lines 166-167). -/
def phaseDuration (release_date start : ℤ) : ℤ :=
  max 1 ⌈((release_date - start : ℤ) : ℚ) / 7⌉

/-- `_create_phases` (rollout_planner.py lines 107-229). -/
def createPhases (ranked_regions : List RegionScore) (start_date release_date : ℤ)
    (movie_signature : MovieSignature) (campaign_weeks : ℤ) : List Phase :=
  let tier_a := ranked_regions.filter (fun r => r.tier == Tier.A)
  let tier_b := ranked_regions.filter (fun r => r.tier == Tier.B)
  let tier_c := ranked_regions.filter (fun r => r.tier == Tier.C)
  if tier_a = [] ∧ tier_b = [] ∧ tier_c = [] then []
  else
    let total_weeks := max 1 campaign_weeks
    let offB := offsetFor total_weeks 0.35 1
    let offC := offsetFor total_weeks 0.65 2
    let entries := phaseWeightEntries tier_a.length tier_b.length tier_c.length
    let weight_sum := (entries.map Prod.snd).sum
    let total_weight := if weight_sum = 0 then 1 else weight_sum
    let normalized_pct := assignPcts total_weight entries 0
    let genre_focus := movie_signature.genre_focus
    let lead_name :=
      if movie_signature.lead = "" then "the ensemble cast" else movie_signature.lead
    let audience := movie_signature.audience_callout
    let hook :=
      if movie_signature.hook ≠ "" then movie_signature.hook
      else if movie_signature.title ≠ "" then movie_signature.title
      else "the film"
    let title_short := movie_signature.title
    -- Phase 1: Tier A (the `.strip()` on the focus text is the identity here,
    -- as the template neither starts nor ends with whitespace)
    let phases1 : List Phase :=
      if tier_a ≠ [] then
        [{ phase := 1,
           name := movie_signature.primary_genre ++ " Fan Ignition",
           start_date := start_date,
           duration_weeks := phaseDuration release_date start_date,
           regions := tier_a.map (fun r => r.region),
           intensity := "High",
           focus := "Position " ++ title_short ++ " as the must-see " ++
             movie_signature.primary_genre.toLower ++ " event. Lead with " ++
             genre_focus ++ " and " ++ lead_name ++
             " interviews to rally " ++ audience ++ " and drive premium pre-sales.",
           budget_percentage := match normalized_pct.lookup Tier.A with
             | some v => v
             | none => 0,
           movie_hook := hook }]
      else []
    -- Phase 2: Tier B expansion
    let phases2 : List Phase :=
      if tier_b ≠ [] ∧ start_date < release_date then
        let phase_start := min release_date (start_date + 7 * offB)
        if phase_start < release_date then
          phases1 ++
            [{ phase := phases1.length + 1,
               name := "Social Proof Expansion",
               start_date := phase_start,
               duration_weeks := phaseDuration release_date phase_start,
               regions := tier_b.map (fun r => r.region),
               intensity := "Medium",
               focus := "Capitalize on Tier-A reactions by localizing social proof clips, critic quotes, and " ++
                 hook.toLower ++
                 " callouts. Balance paid reach with experiential moments for regional partners.",
               budget_percentage := match normalized_pct.lookup Tier.B with
                 | some v => v
                 | none => 0,
               movie_hook := "Localized " ++ genre_focus }]
        else phases1
      else phases1
    -- Phase 3: long tail, Tier C
    let phases3 : List Phase :=
      if tier_c ≠ [] ∧ start_date < release_date then
        let phase_start := min release_date (start_date + 7 * offC)
        if phase_start < release_date then
          phases2 ++
            [{ phase := phases2.length + 1,
               name := "Long-tail Sustain & Emerging Markets",
               start_date := phase_start,
               duration_weeks := phaseDuration release_date phase_start,
               regions := tier_c.map (fun r => r.region),
               intensity := "Low",
               focus := "Keep " ++ title_short ++
                 " top-of-mind with cost-efficient retargeting, fan community drops, and partner bundles that celebrate " ++
                 genre_focus ++ ".",
               budget_percentage := match normalized_pct.lookup Tier.C with
                 | some v => v
                 | none => 0,
               movie_hook := "Community-driven " ++ title_short }]
        else phases2
      else phases2
    phases3

/-- One budget-allocation record (`_allocate_budget`). -/
structure BudgetAllocation where
  region : String
  budget_amount : ℚ
  percentage : ℚ
  tier : Tier
  justification : String
deriving DecidableEq

/-- The per-region allocation body of the loop in `_allocate_budget`
(rollout_planner.py lines 242-253). -/
def allocationEntry (total_pct total_budget : ℚ) (r : RegionScore) : BudgetAllocation :=
  let pct : ℚ := if total_pct > 0 then r.suggested_budget_pct / total_pct * 100 else 0
  let amount := (pct / 100) * total_budget
  { region := r.region,
    budget_amount := round2 amount,
    percentage := round2 pct,
    tier := r.tier,
    justification := r.recommendation }

/-- `_allocate_budget` (rollout_planner.py lines 231-255); the final
`sorted(..., key=amount, reverse=True)` is Python's stable descending sort,
modelled as a stable insertion sort on the same key. -/
def allocateBudget (ranked_regions : List RegionScore) (total_budget : ℚ) :
    List BudgetAllocation :=
  let total_pct := (ranked_regions.map (fun r => r.suggested_budget_pct)).sum
  List.insertionSort (fun a b => b.budget_amount ≤ a.budget_amount)
    (ranked_regions.map (allocationEntry total_pct total_budget))

/-- One timeline week (`_create_timeline`). -/
structure TimelineWeek where
  week : ℕ
  start_date : ℤ
  end_date : ℤ
  phase : String
  active_regions : List String
  key_activities : List String
  intensity : String
deriving DecidableEq

/-- `_get_weekly_activities` (rollout_planner.py lines 297-322). -/
def getWeeklyActivities (weeks_to_release : ℤ) : List String :=
  if weeks_to_release ≥ 6 then
    ["Launch teaser campaign", "Build social media presence", "Secure media partnerships"]
  else if weeks_to_release ≥ 4 then
    ["Release official trailer", "Start paid social campaigns", "Begin PR tour"]
  else if weeks_to_release ≥ 2 then
    ["Intensify digital ads", "Launch ticket pre-sales", "Host premiere events"]
  else
    ["Final push - all channels", "Leverage reviews & testimonials", "Drive ticket sales"]

/-- The active-phase scan of `_create_timeline` (rollout_planner.py lines
272-276): the last phase in list order whose start date is at or before the
current window start. -/
def activePhaseFor (phases : List Phase) (current : ℤ) : Option Phase :=
  phases.foldl (fun acc p => if p.start_date ≤ current then some p else acc) none

/-- The `while current < release_date` loop of `_create_timeline`
(rollout_planner.py lines 264-295), driven by an explicit fuel which
`createTimeline` supplies generously (each iteration advances `current` by at
least one day). -/
def createTimelineGo (phases : List Phase) (release_date : ℤ) :
    ℕ → ℤ → ℕ → List TimelineWeek
  | 0, _, _ => []
  | fuel + 1, current, week =>
    if current < release_date then
      let week_end := min (current + 7) release_date
      let active := activePhaseFor phases current
      { week := week,
        start_date := current,
        end_date := week_end,
        phase := match active with
          | some p => p.name
          | none => "Pre-campaign",
        active_regions := match active with
          | some p => p.regions
          | none => [],
        key_activities := getWeeklyActivities ((release_date - current) / 7),
        intensity := match active with
          | some p => p.intensity
          | none => "Low" } ::
      createTimelineGo phases release_date fuel week_end (week + 1)
    else []

/-- `_create_timeline` (rollout_planner.py lines 257-295). -/
def createTimeline (phases : List Phase) (start_date release_date : ℤ) :
    List TimelineWeek :=
  createTimelineGo phases release_date (release_date - start_date).toNat start_date 1

/-- One milestone (`_generate_milestones`); milestone dates are compared by
their `'%Y-%m-%d'` rendering in the source, which orders like the day
numbers. -/
structure Milestone where
  date : ℤ
  milestone : String
  description : String
deriving DecidableEq

/-- `_generate_milestones` (rollout_planner.py lines 364-413); the final
`sorted(..., key=date)` is Python's stable ascending sort, modelled as a
stable insertion sort on the same key. -/
def generateMilestones (start_date release_date : ℤ) : List Milestone :=
  let ms0 : List Milestone :=
    [{ date := start_date, milestone := "Campaign Launch",
       description := "Teaser release, social media kickoff" }]
  let trailer_date := release_date - 7 * 4
  let ms1 :=
    if trailer_date > start_date then
      ms0 ++ [{ date := trailer_date, milestone := "Official Trailer Release",
                description := "Major media push, paid amplification" }]
    else ms0
  let presale_date := release_date - 7 * 2
  let ms2 :=
    if presale_date > start_date then
      ms1 ++ [{ date := presale_date, milestone := "Ticket Pre-Sales Open",
                description := "Drive early bookings, create urgency" }]
    else ms1
  let premiere_date := release_date - 7 * 1
  let ms3 :=
    if premiere_date > start_date then
      ms2 ++ [{ date := premiere_date, milestone := "World Premiere",
                description := "Red carpet event, press coverage, reviews" }]
    else ms2
  let ms4 := ms3 ++
    [{ date := release_date, milestone := "🎬 RELEASE DAY",
       description := "Full availability, maximize opening weekend" }]
  List.insertionSort (fun a b => a.date ≤ b.date) ms4

/-- One tier block of the channel strategy (`_recommend_channels`). -/
structure ChannelTier where
  regions : List String
  channels : List String
  investment_level : String
deriving DecidableEq

/-- The channel strategy (`_recommend_channels`). -/
structure ChannelStrategy where
  tier_a_regions : ChannelTier
  tier_b_regions : ChannelTier
  tier_c_regions : ChannelTier
deriving DecidableEq

/-- `_recommend_channels` (rollout_planner.py lines 324-362). -/
def recommendChannels (ranked_regions : List RegionScore) : ChannelStrategy :=
  { tier_a_regions :=
      { regions := (ranked_regions.filter (fun r => r.tier == Tier.A)).map (fun r => r.region),
        channels := ["TV spots (prime time)", "YouTube pre-roll", "Instagram/Facebook ads",
          "Outdoor billboards (major cities)", "Influencer partnerships", "Podcast sponsorships"],
        investment_level := "High" },
    tier_b_regions :=
      { regions := (ranked_regions.filter (fun r => r.tier == Tier.B)).map (fun r => r.region),
        channels := ["Digital video ads", "Social media ads", "Streaming platform ads",
          "Local radio spots"],
        investment_level := "Medium" },
    tier_c_regions :=
      { regions := (ranked_regions.filter (fun r => r.tier == Tier.C)).map (fun r => r.region),
        channels := ["Social media organic", "Display ads", "Email campaigns",
          "Search engine marketing"],
        investment_level := "Low-Medium" } }

/-- The `movie_positioning` block of the campaign overview. -/
structure MoviePositioning where
  title : String
  primary_genre : String
  hook : String
  lead : String
  tagline : String
deriving DecidableEq

/-- The `campaign_overview` block; `release_date` echoes the raw input
string, `campaign_start` is the day number whose `'%Y-%m-%d'` rendering the
source stores. -/
structure CampaignOverview where
  release_date : String
  campaign_start : ℤ
  duration_weeks : ℤ
  total_budget : ℤ
  target_regions : ℕ
  movie_positioning : MoviePositioning
deriving DecidableEq

/-- The full plan document returned by `create_rollout_plan`
(`plan_logic` and `budget_duration_logic` are the same object in the source,
so the model carries it once). -/
structure RolloutPlan where
  campaign_overview : CampaignOverview
  phases : List Phase
  budget_allocation : List BudgetAllocation
  timeline : List TimelineWeek
  channel_strategy : ChannelStrategy
  key_milestones : List Milestone
  recommendations : List String
  plan_logic : PlanLogic
deriving DecidableEq

/-- `create_rollout_plan` (rollout_planner.py lines 17-105).

`comparison` stands for `precomputed_comparison or
self.scorer.compare_regions(regional_data or {})` — the ranked comparison the
planner consumes (the scorer itself is an external collaborator).
`releaseDateParsed` is the outcome of
`datetime.strptime(release_date, '%Y-%m-%d')` on the raw string
`releaseDateRaw` (`none` when parsing raises); the `except` branch
substitutes `now + 60` days. -/
def createRolloutPlan (comparison : RegionComparison)
    (releaseDateRaw : String) (releaseDateParsed : Option ℤ)
    (budget_total : Option ℚ) (campaign_weeks : Option ℤ)
    (movie_profile : Option MovieProfile) (now : ℤ) : RolloutPlan :=
  let ranked_regions := comparison.ranked_regions
  let release_dt := releaseDateParsed.getD (now + 60)
  let movie_signature := extractMovieSignature movie_profile
  let planning_parameters :=
    deriveCampaignParameters movie_profile (some comparison)
      budget_total campaign_weeks release_dt now
  let budget_final := planning_parameters.total_budget
  let weeks_final := planning_parameters.campaign_weeks
  let campaign_start := release_dt - 7 * weeks_final
  let phases := createPhases ranked_regions campaign_start release_dt
    movie_signature weeks_final
  let budget_allocation := allocateBudget ranked_regions (budget_final : ℚ)
  let timeline := createTimeline phases campaign_start release_dt
  let channels := recommendChannels ranked_regions
  { campaign_overview :=
      { release_date := releaseDateRaw,
        campaign_start := campaign_start,
        duration_weeks := weeks_final,
        total_budget := budget_final,
        target_regions := ranked_regions.length,
        movie_positioning :=
          { title := movie_signature.title,
            primary_genre := movie_signature.primary_genre,
            hook := movie_signature.hook,
            lead := movie_signature.lead,
            tagline := movie_signature.tagline } },
    phases := phases,
    budget_allocation := budget_allocation,
    timeline := timeline,
    channel_strategy := channels,
    key_milestones := generateMilestones campaign_start release_dt,
    recommendations := comparison.recommendations,
    plan_logic := planning_parameters.logic }

/-! ### Facts about the rounding primitives -/

theorem floor_le_pyRound (q : ℚ) : ⌊q⌋ ≤ pyRound q := by
  unfold pyRound
  split_ifs <;> omega

theorem pyRound_le_floor_add_one (q : ℚ) : pyRound q ≤ ⌊q⌋ + 1 := by
  unfold pyRound
  split_ifs <;> omega

theorem le_pyRound_of_le {n : ℤ} {q : ℚ} (h : (n : ℚ) ≤ q) : n ≤ pyRound q :=
  le_trans (Int.le_floor.mpr h) (floor_le_pyRound q)

theorem pyRound_le_of_le {n : ℤ} {q : ℚ} (h : q ≤ (n : ℚ)) : pyRound q ≤ n := by
  rcases lt_or_eq_of_le h with hlt | heq
  · have h1 : ⌊q⌋ < n := Int.floor_lt.mpr hlt
    have h2 := pyRound_le_floor_add_one q
    omega
  · have h1 : ⌊q⌋ = n := by rw [heq]; exact Int.floor_intCast n
    have h2 : q - ⌊q⌋ < 1/2 := by rw [h1, ← heq]; norm_num
    unfold pyRound
    rw [if_pos h2, h1]

theorem pyRound_le_add_half (q : ℚ) : (pyRound q : ℚ) ≤ q + 1/2 := by
  have h1 := Int.floor_le q
  unfold pyRound
  split_ifs <;> push_cast <;> linarith

theorem sub_half_le_pyRound (q : ℚ) : q - 1/2 ≤ (pyRound q : ℚ) := by
  have h2 := Int.lt_floor_add_one q
  unfold pyRound
  split_ifs <;> push_cast <;> linarith

/-- The clamp-round-floor tail of the budget derivation always lands in
`[250000, 20000000]` on a multiple of `50000`. -/
theorem clampedBudget_bounds (x : ℚ) :
    250000 ≤ max 250000 (pyRound (max 250000 (min x 20000000) / 50000) * 50000) ∧
    max 250000 (pyRound (max 250000 (min x 20000000) / 50000) * 50000) ≤ 20000000 ∧
    50000 ∣ max 250000 (pyRound (max 250000 (min x 20000000) / 50000) * 50000) := by
  have hq1 : (250000 : ℚ) ≤ max 250000 (min x 20000000) := le_max_left _ _
  have hq2 : max 250000 (min x 20000000) ≤ 20000000 :=
    max_le (by norm_num) (min_le_right _ _)
  have h5 : (5 : ℤ) ≤ pyRound (max 250000 (min x 20000000) / 50000) :=
    le_pyRound_of_le (by push_cast; linarith)
  have h400 : pyRound (max 250000 (min x 20000000) / 50000) ≤ 400 :=
    pyRound_le_of_le (by push_cast; linarith)
  refine ⟨le_max_left _ _, ?_, ?_⟩
  · exact max_le (by norm_num) (by omega)
  · rcases max_choice (250000 : ℤ)
      (pyRound (max 250000 (min x 20000000) / 50000) * 50000) with h | h <;> rw [h]
    · norm_num
    · exact dvd_mul_left 50000 _

/-! ### C1 -/

/-- C1: for every call to `create_rollout_plan` in which neither the
`budget_total` nor the `campaign_weeks` override is supplied, the derived
`campaign_weeks` lies in `[4, 16]`, and the derived `total_budget` lies in
`[250000, 20000000]` and is an integer multiple of `50000`. -/
theorem claim_C1_derived_parameter_bounds
    (comparison : RegionComparison) (raw : String) (parsed : Option ℤ)
    (movie_profile : Option MovieProfile) (now : ℤ) :
    let plan := createRolloutPlan comparison raw parsed none none movie_profile now
    (4 ≤ plan.campaign_overview.duration_weeks ∧
      plan.campaign_overview.duration_weeks ≤ 16) ∧
    (250000 ≤ plan.campaign_overview.total_budget ∧
      plan.campaign_overview.total_budget ≤ 20000000) ∧
    50000 ∣ plan.campaign_overview.total_budget := by
  simp only [createRolloutPlan, deriveCampaignParameters]
  refine ⟨⟨le_max_left _ _, max_le (by norm_num) (min_le_right _ _)⟩, ?_⟩
  exact ⟨⟨(clampedBudget_bounds _).1, (clampedBudget_bounds _).2.1⟩,
    (clampedBudget_bounds _).2.2⟩

/-! ### C2 -/

/-- C2: for every plan produced by `create_rollout_plan`, the
`campaign_start` date in the campaign overview equals the (parsed, or
fallback `now + 60` days) release date minus `campaign_weeks` times 7 days,
exactly, for the final `campaign_weeks` value (derived or overridden). -/
theorem claim_C2_campaign_start_exact
    (comparison : RegionComparison) (raw : String) (parsed : Option ℤ)
    (budget_total : Option ℚ) (campaign_weeks : Option ℤ)
    (movie_profile : Option MovieProfile) (now : ℤ) :
    let plan := createRolloutPlan comparison raw parsed budget_total campaign_weeks
      movie_profile now
    plan.campaign_overview.campaign_start =
      parsed.getD (now + 60) - 7 * plan.campaign_overview.duration_weeks := by
  cases parsed <;> rfl

/-! ### C3 -/

/-- The duration rule exactly as the specification phrases it: with no
override, `base = clamp(release_gap_weeks, 4, 16)` if the gap is positive
else a fixed 6; `+1` for popularity `≥ 70`, `+1` for at least 3 Tier-A
regions, `+1` for production budget `≥ 150000000`; the result clamped to
`[4, 16]`.  An override is used verbatim, clamped only to `≥ 1`. -/
def specCampaignWeeks (overrideDuration : Option ℤ) (releaseGapWeeks : ℤ)
    (popularity : ℚ) (tierACount : ℕ) (productionBudget : ℚ) : ℤ :=
  match overrideDuration with
  | some d => max 1 d
  | none =>
    let base := if 0 < releaseGapWeeks then min (max releaseGapWeeks 4) 16 else 6
    max 4 (min (base
      + (if 70 ≤ popularity then 1 else 0)
      + (if 3 ≤ tierACount then 1 else 0)
      + (if 150000000 ≤ productionBudget then 1 else 0)) 16)

/-- C3: the campaign duration computed by `_derive_campaign_parameters`
follows the specification rule `specCampaignWeeks` applied to the release-gap
weeks and Tier-A count it itself reports in the signals snapshot, to the
coerced popularity, and to the coerced production budget; in particular an
override is used verbatim (clamped to `≥ 1`) and skips the additive rules. -/
theorem claim_C3_duration_rule
    (movieProfile : Option MovieProfile) (regionalSummary : Option RegionComparison)
    (overrideBudget : Option ℚ) (overrideDuration : Option ℤ) (release_dt now : ℤ) :
    (deriveCampaignParameters movieProfile regionalSummary overrideBudget
        overrideDuration release_dt now).campaign_weeks =
      specCampaignWeeks overrideDuration
        (deriveCampaignParameters movieProfile regionalSummary overrideBudget
          overrideDuration release_dt now).logic.signals.release_gap_weeks
        (coercePopularity (profilePopularity movieProfile))
        (deriveCampaignParameters movieProfile regionalSummary overrideBudget
          overrideDuration release_dt now).logic.signals.tier_a_markets
        (coerceBudget (profileBudget movieProfile)) := by
  cases overrideDuration <;> rfl

/-! ### C10 -/

/-- C10: a movie profile whose `popularity` field is an explicit `0` (or any
falsy value: `None`, the empty string) derives exactly the same campaign
parameters as the same profile with popularity `45`, and — absent a budget
override — the popularity budget multiplier applied is the score-45 premium
`463/400 = 1.1575`, which is not the no-premium multiplier `1`. -/
theorem claim_C10_falsy_popularity_default
    (p : MovieProfile) (rs : Option RegionComparison) (ob : Option ℚ)
    (od : Option ℤ) (release_dt now : ℤ) (f : Option ℚ) (i : Option ℤ) :
    (deriveCampaignParameters (some { p with popularity := .pyNum 0 }) rs ob od
        release_dt now =
      deriveCampaignParameters (some { p with popularity := .pyNum 45 }) rs ob od
        release_dt now) ∧
    (deriveCampaignParameters (some { p with popularity := .pyNone }) rs ob od
        release_dt now =
      deriveCampaignParameters (some { p with popularity := .pyNum 45 }) rs ob od
        release_dt now) ∧
    (deriveCampaignParameters (some { p with popularity := .pyStr "" f i }) rs ob od
        release_dt now =
      deriveCampaignParameters (some { p with popularity := .pyNum 45 }) rs ob od
        release_dt now) ∧
    BudgetDriver.hypePremium 45 (463/400) ∈
      (deriveCampaignParameters (some { p with popularity := .pyNum 0 }) rs none od
        release_dt now).logic.budget_drivers ∧
    (463/400 : ℚ) ≠ 1 := by
  have h0 : coercePopularity (profilePopularity
      (some { p with popularity := .pyNum 0 })) = 45 := by
    simp [profilePopularity, coercePopularity]
  have h45 : coercePopularity (profilePopularity
      (some { p with popularity := .pyNum 45 })) = 45 := by
    norm_num [profilePopularity, coercePopularity]
  have hn : coercePopularity (profilePopularity
      (some { p with popularity := .pyNone })) = 45 := by
    simp [profilePopularity, coercePopularity]
  have hs : coercePopularity (profilePopularity
      (some { p with popularity := .pyStr "" f i })) = 45 := by
    simp [profilePopularity, coercePopularity]
  refine ⟨?_, ?_, ?_, ?_, by norm_num⟩
  · simp only [deriveCampaignParameters, profileBudget, profileVoteCount, h0, h45]
  · simp only [deriveCampaignParameters, profileBudget, profileVoteCount, hn, h45]
  · simp only [deriveCampaignParameters, profileBudget, profileVoteCount, hs, h45]
  · simp only [deriveCampaignParameters, profileBudget, profileVoteCount, h0]
    have hps : max (0 : ℚ) (min 45 100) = 45 := by norm_num
    simp [hps, List.mem_append]
    norm_num

/-! ### C7 -/

/-- With no phases, every generated timeline week is a Pre-campaign week
with no active regions. -/
theorem createTimelineGo_nil_pre (r : ℤ) :
    ∀ (fuel : ℕ) (current : ℤ) (week : ℕ),
      ((createTimelineGo [] r fuel current week).all
        (fun w => w.phase == "Pre-campaign" && w.active_regions.isEmpty)) = true := by
  intro fuel
  induction fuel with
  | zero => intro current week; rfl
  | succ n ih =>
    intro current week
    unfold createTimelineGo
    split_ifs with h
    · simp only [activePhaseFor, List.foldl_nil, List.all_cons, ih, Bool.and_true]
      rfl
    · rfl

/-- C7: `create_rollout_plan` degrades instead of raising: an unparseable
release date is replaced by `now + 60` days; non-numeric or missing
`popularity`, `budget` and `vote_count` coerce to the defaults 45, 0 and 0;
and empty region data (the scorer returns no ranked regions) yields a plan
with zero phases, zero allocations, and a Pre-campaign-only timeline.  (The
model is total by construction, mirroring the absence of any raising path in
the source.) -/
theorem claim_C7_degrade_to_defaults :
    (∀ (c : RegionComparison) (raw : String) (bt : Option ℚ) (cw : Option ℤ)
        (mp : Option MovieProfile) (now : ℤ),
      createRolloutPlan c raw none bt cw mp now =
        createRolloutPlan c raw (some (now + 60)) bt cw mp now) ∧
    (∀ s i, coercePopularity (.pyStr s none i) = 45) ∧
    coercePopularity .missing = 45 ∧
    (∀ s i, coerceBudget (.pyStr s none i) = 0) ∧
    coerceBudget .missing = 0 ∧
    (∀ s f, coerceVoteCount (.pyStr s f none) = 0) ∧
    coerceVoteCount .missing = 0 ∧
    (∀ (raw : String) (bt : Option ℚ) (cw : Option ℤ)
        (mp : Option MovieProfile) (now : ℤ),
      (createRolloutPlan compareRegionsEmpty raw none bt cw mp now).phases = [] ∧
      (createRolloutPlan compareRegionsEmpty raw none bt cw mp now).budget_allocation
        = [] ∧
      ((createRolloutPlan compareRegionsEmpty raw none bt cw mp now).timeline.all
        (fun w => w.phase == "Pre-campaign" && w.active_regions.isEmpty)) = true) := by
  refine ⟨fun c raw bt cw mp now => rfl, ?_, rfl, ?_, rfl, ?_, rfl, ?_⟩
  · intro s i
    simp only [coercePopularity]
    split_ifs <;> rfl
  · intro s i
    simp only [coerceBudget]
    split_ifs <;> rfl
  · intro s f
    simp only [coerceVoteCount]
    split_ifs <;> rfl
  · intro raw bt cw mp now
    refine ⟨rfl, rfl, ?_⟩
    exact createTimelineGo_nil_pre _ _ _ _

/-! ### C4 -/

theorem offsetFor_bounds (tw : ℤ) (m : ℚ) ( mw : ℤ) (h1 : 1 ≤ tw) (hmw : 0 ≤ mw) :
    0 ≤ offsetFor tw m mw ∧ offsetFor tw m mw ≤ tw - 1 := by
  unfold offsetFor
  split_ifs with h
  · omega
  · exact ⟨le_min (by omega) (le_trans hmw (le_max_left _ _)), min_le_left _ _⟩

theorem deriveCampaignParameters_weeks_pos
    (mp : Option MovieProfile) (rs : Option RegionComparison)
    (ob : Option ℚ) (od : Option ℤ) (rd now : ℤ) :
    1 ≤ (deriveCampaignParameters mp rs ob od rd now).campaign_weeks := by
  cases od <;> simp only [deriveCampaignParameters] <;> omega

/-- A nonempty ranked sequence has at least one nonempty tier group
(tiers are exhaustively `A`, `B`, `C`). -/
theorem tier_filter_cover {ranked : List RegionScore} (hne : ranked ≠ []) :
    ranked.filter (fun x => x.tier == Tier.A) ≠ [] ∨
    ranked.filter (fun x => x.tier == Tier.B) ≠ [] ∨
    ranked.filter (fun x => x.tier == Tier.C) ≠ [] := by
  cases ranked with
  | nil => exact absurd rfl hne
  | cons x xs =>
    rcases hx : x.tier with _ | _ | _
    · left
      simp [List.filter_cons, hx]
    · right; left
      simp [List.filter_cons, hx]
    · right; right
      simp [List.filter_cons, hx]

/-- `_create_phases` on a campaign window `[r - 7w, r)` with `w ≥ 1` weeks
(the shape every plan provides): the emitted phases are exactly one per
nonempty tier, and their budget percentages sum to 100. -/
theorem createPhases_budget_split (ranked : List RegionScore) (r : ℤ)
    (sig : MovieSignature) (w : ℤ) (hw : 1 ≤ w) (hne : ranked ≠ []) :
    ((createPhases ranked (r - 7 * w) r sig w).map
      (fun p => p.budget_percentage)).sum = 100 ∧
    (createPhases ranked (r - 7 * w) r sig w).length =
      ((if ranked.filter (fun x => x.tier == Tier.A) ≠ [] then 1 else 0) +
       (if ranked.filter (fun x => x.tier == Tier.B) ≠ [] then 1 else 0) +
       (if ranked.filter (fun x => x.tier == Tier.C) ≠ [] then 1 else 0)) := by
  have htw : max 1 w = w := max_eq_right hw
  have hBb := offsetFor_bounds (max 1 w) 0.35 1 (le_max_left _ _) (by norm_num)
  have hCb := offsetFor_bounds (max 1 w) 0.65 2 (le_max_left _ _) (by norm_num)
  rw [htw] at hBb hCb
  have hs : r - 7 * w < r := by omega
  have hBlt : r - 7 * w + 7 * offsetFor (max 1 w) 0.35 1 < r := by rw [htw]; omega
  have hClt : r - 7 * w + 7 * offsetFor (max 1 w) 0.65 2 < r := by rw [htw]; omega
  have hBmin : min r (r - 7 * w + 7 * offsetFor (max 1 w) 0.35 1) =
      r - 7 * w + 7 * offsetFor (max 1 w) 0.35 1 := min_eq_right (le_of_lt hBlt)
  have hCmin : min r (r - 7 * w + 7 * offsetFor (max 1 w) 0.65 2) =
      r - 7 * w + 7 * offsetFor (max 1 w) 0.65 2 := min_eq_right (le_of_lt hClt)
  by_cases hA : ranked.filter (fun x => x.tier == Tier.A) = [] <;>
    by_cases hB : ranked.filter (fun x => x.tier == Tier.B) = [] <;>
      by_cases hC : ranked.filter (fun x => x.tier == Tier.C) = []
  case pos =>
    rcases tier_filter_cover hne with h | h | h
    · exact absurd hA h
    · exact absurd hB h
    · exact absurd hC h
  all_goals
    simp only [createPhases, phaseWeightEntries, hA, hB, hC, hs, hBlt, hClt, hBmin, hCmin,
      List.length_eq_zero, ne_eq, not_false_iff, not_true, if_true, if_false,
      and_true, and_false, true_and, false_and, and_self, if_neg, ite_true, ite_false,
      List.append_nil, List.nil_append, List.cons_append, List.length_nil,
      List.length_cons, List.sum_nil, List.sum_cons, List.map_cons, List.map_nil,
      assignPcts, List.lookup,
      show (Tier.A == Tier.A) = true from rfl, show (Tier.B == Tier.A) = false from rfl,
      show (Tier.C == Tier.A) = false from rfl, show (Tier.B == Tier.B) = true from rfl,
      show (Tier.C == Tier.B) = false from rfl, show (Tier.C == Tier.C) = true from rfl]
  all_goals
    first
      | (constructor <;> omega)
      | omega
      | (simp_all <;> omega)

/-- In a nonempty list whose mapped values sum to 100, the last element
carries `100` minus the sum over the other elements. -/
theorem getLast_remainder {α : Type} (f : α → ℤ) (l : List α) (hl : l ≠ [])
    (hsum : (l.map f).sum = 100) :
    l.getLast?.map f = some (100 - (l.dropLast.map f).sum) := by
  have h1 : l.dropLast ++ [l.getLast hl] = l := List.dropLast_append_getLast hl
  have h2 : (l.map f).sum = (l.dropLast.map f).sum + f (l.getLast hl) := by
    conv_lhs => rw [← h1]
    simp
  rw [List.getLast?_eq_getLast l hl]
  simp only [Option.map_some']
  congr 1
  omega

/-- C4: for every plan whose ranked-region sequence is non-empty, the budget
percentages of the phases present sum to exactly 100, the phase of the last
present tier carries the rounding remainder (its percentage is 100 minus the
sum of the other phases), and a tier produces a phase exactly when it has at
least one region. -/
theorem claim_C4_phase_percentages_sum_100
    (comparison : RegionComparison) (raw : String) (parsed : Option ℤ)
    (bt : Option ℚ) (cw : Option ℤ) (mp : Option MovieProfile) (now : ℤ)
    (hne : comparison.ranked_regions ≠ []) :
    let plan := createRolloutPlan comparison raw parsed bt cw mp now
    ((plan.phases.map (fun p => p.budget_percentage)).sum = 100) ∧
    (plan.phases.getLast?.map (fun p => p.budget_percentage) =
      some (100 - ((plan.phases.dropLast.map (fun p => p.budget_percentage)).sum))) ∧
    plan.phases.length =
      ((if comparison.ranked_regions.filter (fun x => x.tier == Tier.A) ≠ []
          then 1 else 0) +
       (if comparison.ranked_regions.filter (fun x => x.tier == Tier.B) ≠ []
          then 1 else 0) +
       (if comparison.ranked_regions.filter (fun x => x.tier == Tier.C) ≠ []
          then 1 else 0)) := by
  intro plan
  have hw : 1 ≤ (deriveCampaignParameters mp (some comparison) bt cw
      (parsed.getD (now + 60)) now).campaign_weeks :=
    deriveCampaignParameters_weeks_pos _ _ _ _ _ _
  have hmain := createPhases_budget_split comparison.ranked_regions
    (parsed.getD (now + 60)) (extractMovieSignature mp)
    ((deriveCampaignParameters mp (some comparison) bt cw
      (parsed.getD (now + 60)) now).campaign_weeks) hw hne
  have hpp : plan.phases = createPhases comparison.ranked_regions
      (parsed.getD (now + 60) - 7 * (deriveCampaignParameters mp (some comparison)
        bt cw (parsed.getD (now + 60)) now).campaign_weeks)
      (parsed.getD (now + 60)) (extractMovieSignature mp)
      ((deriveCampaignParameters mp (some comparison) bt cw
        (parsed.getD (now + 60)) now).campaign_weeks) := rfl
  rw [hpp]
  have h1 := hmain.1
  have hlne : createPhases comparison.ranked_regions
      (parsed.getD (now + 60) - 7 * (deriveCampaignParameters mp (some comparison)
        bt cw (parsed.getD (now + 60)) now).campaign_weeks)
      (parsed.getD (now + 60)) (extractMovieSignature mp)
      ((deriveCampaignParameters mp (some comparison) bt cw
        (parsed.getD (now + 60)) now).campaign_weeks) ≠ [] := by
    intro h
    rw [h] at h1
    simp at h1
  exact ⟨hmain.1, getLast_remainder _ _ hlne hmain.1, hmain.2⟩

/-- A small three-tier ranked comparison used as concrete test input. -/
def sampleComparison : RegionComparison :=
  { ranked_regions := [
      { region := "US", total_score := 95, tier := Tier.A,
        suggested_budget_pct := 40, recommendation := "Prioritize launch" },
      { region := "IN", total_score := 72, tier := Tier.B,
        suggested_budget_pct := 35, recommendation := "Expand reach" },
      { region := "BR", total_score := 65, tier := Tier.C,
        suggested_budget_pct := 25, recommendation := "Sustain interest" }],
    recommendations := ["Focus on US"] }

/-- Witness for C4 at a concrete three-tier input. -/
theorem claim_C4_phase_percentages_sum_100_witness :
    sampleComparison.ranked_regions ≠ [] ∧
    (let plan := createRolloutPlan sampleComparison "2024-06-15" (some 19889)
        (some 2000000) (some 6) none 19800
     ((plan.phases.map (fun p => p.budget_percentage)).sum = 100) ∧
     (plan.phases.getLast?.map (fun p => p.budget_percentage) =
       some (100 - ((plan.phases.dropLast.map (fun p => p.budget_percentage)).sum))) ∧
     plan.phases.length =
       ((if sampleComparison.ranked_regions.filter (fun x => x.tier == Tier.A) ≠ []
           then 1 else 0) +
        (if sampleComparison.ranked_regions.filter (fun x => x.tier == Tier.B) ≠ []
           then 1 else 0) +
        (if sampleComparison.ranked_regions.filter (fun x => x.tier == Tier.C) ≠ []
           then 1 else 0))) :=
  ⟨by decide, claim_C4_phase_percentages_sum_100 sampleComparison "2024-06-15"
    (some 19889) (some 2000000) (some 6) none 19800 (by decide)⟩

/-! ### C6 -/

theorem round2_close (q : ℚ) : |round2 q - q| ≤ 1/200 := by
  have h1 := pyRound_le_add_half (q * 100)
  have h2 := sub_half_le_pyRound (q * 100)
  rw [abs_le]
  unfold round2
  constructor <;> linarith

theorem sum_round2_close (l : List ℚ) :
    |(l.map round2).sum - l.sum| ≤ (l.length : ℚ) * (1/200) := by
  induction l with
  | nil => simp
  | cons x xs ih =>
    simp only [List.map_cons, List.sum_cons, List.length_cons]
    have hx : |round2 x - x| ≤ 1/200 := round2_close x
    calc |(round2 x + (xs.map round2).sum) - (x + xs.sum)|
        = |(round2 x - x) + ((xs.map round2).sum - xs.sum)| := by ring_nf
      _ ≤ |round2 x - x| + |(xs.map round2).sum - xs.sum| := abs_add _ _
      _ ≤ 1/200 + (xs.length : ℚ) * (1/200) := add_le_add hx ih
      _ = ((xs.length + 1 : ℕ) : ℚ) * (1/200) := by push_cast; ring

theorem sum_div_mul (l : List ℚ) (T c : ℚ) :
    (l.map (fun p => p / T * c)).sum = l.sum / T * c := by
  induction l with
  | nil => simp
  | cons x xs ih =>
    simp only [List.map_cons, List.sum_cons, ih]
    ring

/-- Four ranked regions whose exact shares are `0.375%, 0.375%, 0.375%,
98.875%`: each share sits exactly on a half-cent and rounds up by `0.005`
under round-half-to-even, so the rounded percentages sum to `100.02`. -/
def driftRegions : List RegionScore :=
  [{ region := "R1", total_score := 80, tier := Tier.A,
     suggested_budget_pct := 3/8, recommendation := "a" },
   { region := "R2", total_score := 70, tier := Tier.B,
     suggested_budget_pct := 3/8, recommendation := "b" },
   { region := "R3", total_score := 60, tier := Tier.B,
     suggested_budget_pct := 3/8, recommendation := "c" },
   { region := "R4", total_score := 50, tier := Tier.C,
     suggested_budget_pct := 791/8, recommendation := "d" }]

/-- C6 counterexample: a non-empty four-region ranked sequence with positive
total suggested percentage on which the allocation percentages sum to
`100.02`, outside the claimed `±0.01` tolerance. -/
theorem claim_C6_counterexample :
    driftRegions ≠ [] ∧
    0 < (driftRegions.map (fun r => r.suggested_budget_pct)).sum ∧
    ((allocateBudget driftRegions 1000000).map (fun a => a.percentage)).sum =
      10002/100 ∧
    ¬ (|((allocateBudget driftRegions 1000000).map
        (fun a => a.percentage)).sum - 100| ≤ 1/100) := by
  have h1 : ((allocateBudget driftRegions 1000000).map (fun a => a.percentage)).sum
      = ((driftRegions.map (allocationEntry
          ((driftRegions.map (fun r => r.suggested_budget_pct)).sum) 1000000)).map
          (fun a => a.percentage)).sum :=
    List.Perm.sum_eq (List.Perm.map _ (List.perm_insertionSort _ _))
  have h2 : ((allocateBudget driftRegions 1000000).map (fun a => a.percentage)).sum
      = 10002/100 := by
    rw [h1]
    norm_num [driftRegions, allocationEntry, round2, pyRound]
  refine ⟨by simp [driftRegions], by norm_num [driftRegions], h2, ?_⟩
  rw [h2]
  intro hcon
  rw [abs_le] at hcon
  have h3 := hcon.2
  norm_num at h3

/-- C6 (amended): the allocation list is a permutation of the per-region
entries; with a positive percentage total each entry is the region's
proportional share of the budget (and of 100), rounded to 2 decimals; with a
zero total every amount and percentage is 0; the list is sorted descending by
amount; and the rounded percentages sum to 100 within `±0.005` per region
(`n/200` overall) — not within the flat `±0.01` the original claim states. -/
theorem claim_C6_allocation_amended (ranked : List RegionScore) (B : ℚ) :
    List.Perm (allocateBudget ranked B)
      (ranked.map (allocationEntry
        ((ranked.map (fun r => r.suggested_budget_pct)).sum) B)) ∧
    (∀ r : RegionScore,
      0 < (ranked.map (fun x => x.suggested_budget_pct)).sum →
      (allocationEntry ((ranked.map (fun x => x.suggested_budget_pct)).sum) B
          r).budget_amount
        = round2 (r.suggested_budget_pct /
            ((ranked.map (fun x => x.suggested_budget_pct)).sum) * B) ∧
      (allocationEntry ((ranked.map (fun x => x.suggested_budget_pct)).sum) B
          r).percentage
        = round2 (r.suggested_budget_pct /
            ((ranked.map (fun x => x.suggested_budget_pct)).sum) * 100)) ∧
    ((ranked.map (fun x => x.suggested_budget_pct)).sum = 0 →
      ((allocateBudget ranked B).all
        (fun a => a.budget_amount == 0 && a.percentage == 0)) = true) ∧
    List.Sorted (fun a b => b.budget_amount ≤ a.budget_amount)
      (allocateBudget ranked B) ∧
    (0 < (ranked.map (fun x => x.suggested_budget_pct)).sum →
      |((allocateBudget ranked B).map (fun a => a.percentage)).sum - 100| ≤
        (ranked.length : ℚ) / 200) := by
  refine ⟨List.perm_insertionSort _ _, ?_, ?_, ?_, ?_⟩
  · intro r hT
    constructor
    · show round2 _ = _
      congr 1
      rw [if_pos hT]
      ring
    · show round2 _ = _
      congr 1
      rw [if_pos hT]
  · intro hT0
    rw [List.all_eq_true]
    intro a ha
    have hmem : a ∈ ranked.map (allocationEntry
        ((ranked.map (fun x => x.suggested_budget_pct)).sum) B) :=
      (List.perm_insertionSort _ _).mem_iff.mp ha
    obtain ⟨r, hr, rfl⟩ := List.mem_map.mp hmem
    rw [hT0]
    norm_num [allocationEntry, round2, pyRound]
  · haveI ht : IsTotal BudgetAllocation
        (fun a b => b.budget_amount ≤ a.budget_amount) :=
      ⟨fun a b => le_total _ _⟩
    haveI htr : IsTrans BudgetAllocation
        (fun a b => b.budget_amount ≤ a.budget_amount) :=
      ⟨fun a b c h1 h2 => le_trans h2 h1⟩
    exact @List.sorted_insertionSort _ _ _ ht htr _
  · intro hT
    have hTne : ((ranked.map (fun x => x.suggested_budget_pct)).sum) ≠ 0 :=
      ne_of_gt hT
    have hperm : ((allocateBudget ranked B).map (fun a => a.percentage)).sum =
        ((ranked.map (allocationEntry
          ((ranked.map (fun x => x.suggested_budget_pct)).sum) B)).map
          (fun a => a.percentage)).sum :=
      List.Perm.sum_eq (List.Perm.map _ (List.perm_insertionSort _ _))
    rw [hperm, List.map_map]
    have hfun : ((fun a => a.percentage) ∘
        (allocationEntry ((ranked.map (fun x => x.suggested_budget_pct)).sum) B)) =
        (fun r => round2 (r.suggested_budget_pct /
          ((ranked.map (fun x => x.suggested_budget_pct)).sum) * 100)) := by
      funext r
      show round2 _ = _
      congr 1
      rw [if_pos hT]
    rw [hfun]
    have hcomp : ranked.map (fun r => round2 (r.suggested_budget_pct /
        ((ranked.map (fun x => x.suggested_budget_pct)).sum) * 100)) =
        (ranked.map (fun r => r.suggested_budget_pct /
          ((ranked.map (fun x => x.suggested_budget_pct)).sum) * 100)).map round2 := by
      rw [List.map_map]
      rfl
    rw [hcomp]
    have hx : ((ranked.map (fun r => r.suggested_budget_pct /
        ((ranked.map (fun x => x.suggested_budget_pct)).sum) * 100)).sum) = 100 := by
      have hmm : ranked.map (fun r => r.suggested_budget_pct /
          ((ranked.map (fun x => x.suggested_budget_pct)).sum) * 100) =
          (ranked.map (fun r => r.suggested_budget_pct)).map (fun p => p /
            ((ranked.map (fun x => x.suggested_budget_pct)).sum) * 100) := by
        rw [List.map_map]
        rfl
      rw [hmm, sum_div_mul, div_self hTne, one_mul]
    have hb := sum_round2_close (ranked.map (fun r => r.suggested_budget_pct /
      ((ranked.map (fun x => x.suggested_budget_pct)).sum) * 100))
    rw [hx, List.length_map] at hb
    calc |((ranked.map (fun r => r.suggested_budget_pct /
            ((ranked.map (fun x => x.suggested_budget_pct)).sum) * 100)).map
            round2).sum - 100|
        ≤ (ranked.length : ℚ) * (1/200) := hb
      _ = (ranked.length : ℚ) / 200 := by ring

/-- A single region reporting a zero suggested percentage. -/
def zeroPctRegion : RegionScore :=
  { region := "ZZ", total_score := 10, tier := Tier.A,
    suggested_budget_pct := 0, recommendation := "n" }

/-- Witness for the amended C6 at concrete inputs: a positive-total
three-region list for the proportional-share and drift-bound parts, and a
zero-total single-region list for the all-zero part. -/
theorem claim_C6_allocation_amended_witness :
    (0 < ((sampleComparison.ranked_regions.map
        (fun x => x.suggested_budget_pct)).sum) ∧
      (allocationEntry ((sampleComparison.ranked_regions.map
          (fun x => x.suggested_budget_pct)).sum) 1000000 zeroPctRegion).percentage
        = round2 (zeroPctRegion.suggested_budget_pct /
            ((sampleComparison.ranked_regions.map
              (fun x => x.suggested_budget_pct)).sum) * 100) ∧
      |((allocateBudget sampleComparison.ranked_regions 1000000).map
          (fun a => a.percentage)).sum - 100| ≤
        (sampleComparison.ranked_regions.length : ℚ) / 200) ∧
    (([zeroPctRegion].map (fun x => x.suggested_budget_pct)).sum = (0 : ℚ) ∧
      ((allocateBudget [zeroPctRegion] 500000).all
        (fun a => a.budget_amount == 0 && a.percentage == 0)) = true) := by
  have hpos : 0 < ((sampleComparison.ranked_regions.map
      (fun x => x.suggested_budget_pct)).sum) := by
    norm_num [sampleComparison]
  have hz : (([zeroPctRegion].map (fun x => x.suggested_budget_pct)).sum : ℚ) = 0 := by
    norm_num [zeroPctRegion]
  exact ⟨⟨hpos,
    ((claim_C6_allocation_amended sampleComparison.ranked_regions 1000000).2.1
      zeroPctRegion hpos).2,
    (claim_C6_allocation_amended sampleComparison.ranked_regions 1000000).2.2.2.2
      hpos⟩,
   hz, (claim_C6_allocation_amended [zeroPctRegion] 500000).2.2.1 hz⟩

/-! ### C9 -/

/-- `_generate_milestones` on any window with `start < release`: the result
is strictly ascending by date, starts with Campaign Launch on the campaign
start, ends with Release Day exactly on the release date, and contains each
intermediate milestone (trailer at release − 4 weeks, pre-sales at − 2 weeks,
premiere at − 1 week) iff its date falls strictly after the campaign start. -/
theorem generateMilestones_spec (s r : ℤ) (hsr : s < r) :
    List.Chain' (fun a b => a.date < b.date) (generateMilestones s r) ∧
    (generateMilestones s r).head?.map (fun m => (m.date, m.milestone)) =
      some (s, "Campaign Launch") ∧
    (generateMilestones s r).getLast?.map (fun m => (m.date, m.milestone)) =
      some (r, "🎬 RELEASE DAY") ∧
    (({ date := r - 7 * 4, milestone := "Official Trailer Release",
        description := "Major media push, paid amplification" } : Milestone) ∈
      generateMilestones s r ↔ s < r - 7 * 4) ∧
    (({ date := r - 7 * 2, milestone := "Ticket Pre-Sales Open",
        description := "Drive early bookings, create urgency" } : Milestone) ∈
      generateMilestones s r ↔ s < r - 7 * 2) ∧
    (({ date := r - 7 * 1, milestone := "World Premiere",
        description := "Red carpet event, press coverage, reviews" } : Milestone) ∈
      generateMilestones s r ↔ s < r - 7 * 1) := by
  simp only [generateMilestones]
  rw [List.Sorted.insertionSort_eq ?hs]
  case hs =>
    split_ifs with h1 h2 h3 <;>
      (simp only [List.cons_append, List.nil_append, List.singleton_append,
        List.sorted_cons, List.sorted_singleton, List.mem_cons,
        List.mem_singleton, List.not_mem_nil, forall_eq_or_imp, forall_eq,
        IsEmpty.forall_iff, implies_true, List.sorted_nil, and_true, true_and] <;>
        omega)
  split_ifs with h1 h2 h3 <;>
    refine ⟨?_, rfl, rfl, ?_, ?_, ?_⟩ <;>
    simp only [List.cons_append, List.nil_append, List.singleton_append,
      List.chain'_cons, List.chain'_singleton, List.chain'_nil,
      List.mem_cons, List.not_mem_nil, Milestone.mk.injEq, or_false, and_true,
      true_and, false_or, implies_true] <;>
    (try simp) <;> try omega

/-- C9: in every plan, the milestone list is strictly ascending by date; the
first milestone is Campaign Launch on the campaign start, the last is
Release Day exactly on the release date, and each intermediate milestone
(trailer at release − 4 weeks, pre-sales at − 2 weeks, premiere at − 1 week)
is included iff its date is strictly after the campaign start. -/
theorem claim_C9_milestones_sorted
    (comparison : RegionComparison) (raw : String) (parsed : Option ℤ)
    (bt : Option ℚ) (cw : Option ℤ) (mp : Option MovieProfile) (now : ℤ) :
    let plan := createRolloutPlan comparison raw parsed bt cw mp now
    List.Chain' (fun a b => a.date < b.date) plan.key_milestones ∧
    plan.key_milestones.head?.map (fun m => (m.date, m.milestone)) =
      some (plan.campaign_overview.campaign_start, "Campaign Launch") ∧
    plan.key_milestones.getLast?.map (fun m => (m.date, m.milestone)) =
      some (parsed.getD (now + 60), "🎬 RELEASE DAY") ∧
    (({ date := parsed.getD (now + 60) - 7 * 4,
        milestone := "Official Trailer Release",
        description := "Major media push, paid amplification" } : Milestone) ∈
      plan.key_milestones ↔
        plan.campaign_overview.campaign_start < parsed.getD (now + 60) - 7 * 4) ∧
    (({ date := parsed.getD (now + 60) - 7 * 2,
        milestone := "Ticket Pre-Sales Open",
        description := "Drive early bookings, create urgency" } : Milestone) ∈
      plan.key_milestones ↔
        plan.campaign_overview.campaign_start < parsed.getD (now + 60) - 7 * 2) ∧
    (({ date := parsed.getD (now + 60) - 7 * 1,
        milestone := "World Premiere",
        description := "Red carpet event, press coverage, reviews" } : Milestone) ∈
      plan.key_milestones ↔
        plan.campaign_overview.campaign_start < parsed.getD (now + 60) - 7 * 1) := by
  intro plan
  have hw := deriveCampaignParameters_weeks_pos mp (some comparison) bt cw
    (parsed.getD (now + 60)) now
  have hsr : parsed.getD (now + 60) - 7 * (deriveCampaignParameters mp
      (some comparison) bt cw (parsed.getD (now + 60)) now).campaign_weeks <
      parsed.getD (now + 60) := by omega
  have hkm : plan.key_milestones = generateMilestones
      (parsed.getD (now + 60) - 7 * (deriveCampaignParameters mp (some comparison)
        bt cw (parsed.getD (now + 60)) now).campaign_weeks)
      (parsed.getD (now + 60)) := rfl
  have hcs : plan.campaign_overview.campaign_start =
      parsed.getD (now + 60) - 7 * (deriveCampaignParameters mp (some comparison)
        bt cw (parsed.getD (now + 60)) now).campaign_weeks := rfl
  rw [hkm, hcs]
  exact generateMilestones_spec _ _ hsr

/-! ### C5 -/

/-- The timeline loop emits nothing once `current` has reached the release
date. -/
theorem createTimelineGo_stop (phases : List Phase) (r : ℤ) (fuel : ℕ) (c : ℤ)
    (wk : ℕ) (h : ¬ c < r) :
    createTimelineGo phases r fuel c wk = [] := by
  cases fuel with
  | zero => rfl
  | succ n => simp only [createTimelineGo, if_neg h]

/-- The timeline loop, run from `c < r` with adequate fuel, tiles `[c, r)`:
the weeks are nonempty, start at `c`, are contiguous (each end is the next
start), all but the last span exactly 7 days, the last ends exactly at `r`,
and the week indices count up from the initial counter. -/
theorem createTimelineGo_spec (phases : List Phase) (r : ℤ) :
    ∀ (fuel : ℕ) (c : ℤ) (wk : ℕ), c < r → (r - c).toNat ≤ fuel →
      createTimelineGo phases r fuel c wk ≠ [] ∧
      (createTimelineGo phases r fuel c wk).head?.map (fun w => w.start_date) =
        some c ∧
      List.Chain' (fun a b => a.end_date = b.start_date)
        (createTimelineGo phases r fuel c wk) ∧
      ((createTimelineGo phases r fuel c wk).dropLast.all
        (fun w => w.end_date == w.start_date + 7)) = true ∧
      (createTimelineGo phases r fuel c wk).getLast?.map (fun w => w.end_date) =
        some r ∧
      (createTimelineGo phases r fuel c wk).map (fun w => w.week) =
        List.range' wk (createTimelineGo phases r fuel c wk).length := by
  intro fuel
  induction fuel with
  | zero =>
    intro c wk hc hf
    exfalso
    omega
  | succ n ih =>
    intro c wk hc hf
    simp only [createTimelineGo, if_pos hc]
    by_cases hcont : c + 7 < r
    · have hmin : min (c + 7) r = c + 7 := min_eq_left (by omega)
      rw [hmin]
      obtain ⟨hne, hhead, hchain, hdrop, hlast, hweeks⟩ :=
        ih (c + 7) (wk + 1) hcont (by omega)
      obtain ⟨hd, tl, hrest⟩ := List.exists_cons_of_ne_nil hne
      rw [hrest] at hhead hchain hdrop hlast hweeks
      rw [hrest]
      have hhd : hd.start_date = c + 7 := by
        simpa using hhead
      refine ⟨by simp, by simp, ?_, ?_, ?_, ?_⟩
      · rw [List.chain'_cons]
        exact ⟨by simp [hhd], hchain⟩
      · rw [List.dropLast_cons₂, List.all_cons]
        simpa using hdrop
      · rw [List.getLast?_cons_cons]
        exact hlast
      · simp only [List.map_cons, List.length_cons] at hweeks ⊢
        rw [List.range'_succ, hweeks]
    · have hmin : min (c + 7) r = r := min_eq_right (by omega)
      rw [hmin, createTimelineGo_stop phases r n r (wk + 1) (lt_irrefl r)]
      refine ⟨by simp, by simp, ?_, by simp, by simp, ?_⟩
      · simp [List.chain'_singleton]
      · simp [List.range'_succ]

/-- `_create_timeline` on any window with `start < release` tiles
`[start, release)` into weeks numbered from 1. -/
theorem createTimeline_spec (phases : List Phase) (s r : ℤ) (hsr : s < r) :
    createTimeline phases s r ≠ [] ∧
    (createTimeline phases s r).head?.map (fun w => w.start_date) = some s ∧
    List.Chain' (fun a b => a.end_date = b.start_date) (createTimeline phases s r) ∧
    ((createTimeline phases s r).dropLast.all
      (fun w => w.end_date == w.start_date + 7)) = true ∧
    (createTimeline phases s r).getLast?.map (fun w => w.end_date) = some r ∧
    (createTimeline phases s r).map (fun w => w.week) =
      List.range' 1 (createTimeline phases s r).length :=
  createTimelineGo_spec phases r ((r - s).toNat) s 1 hsr (le_refl _)

/-- C5: every plan's timeline is a contiguous partition of
`[campaign_start, release_date)`: week 1 starts at the campaign start, each
week's end is the next week's start, every week except possibly the last
spans exactly 7 days, the last week ends exactly on the release date, and the
week indices are consecutive starting at 1. -/
theorem claim_C5_timeline_partition
    (comparison : RegionComparison) (raw : String) (parsed : Option ℤ)
    (bt : Option ℚ) (cw : Option ℤ) (mp : Option MovieProfile) (now : ℤ) :
    let plan := createRolloutPlan comparison raw parsed bt cw mp now
    plan.timeline ≠ [] ∧
    plan.timeline.head?.map (fun w => w.start_date) =
      some plan.campaign_overview.campaign_start ∧
    List.Chain' (fun a b => a.end_date = b.start_date) plan.timeline ∧
    (plan.timeline.dropLast.all (fun w => w.end_date == w.start_date + 7)) = true ∧
    plan.timeline.getLast?.map (fun w => w.end_date) =
      some (parsed.getD (now + 60)) ∧
    plan.timeline.map (fun w => w.week) = List.range' 1 plan.timeline.length := by
  intro plan
  have hw := deriveCampaignParameters_weeks_pos mp (some comparison) bt cw
    (parsed.getD (now + 60)) now
  have hsr : parsed.getD (now + 60) - 7 * (deriveCampaignParameters mp
      (some comparison) bt cw (parsed.getD (now + 60)) now).campaign_weeks <
      parsed.getD (now + 60) := by omega
  have hpt : plan.timeline = createTimeline
      (createPhases comparison.ranked_regions
        (parsed.getD (now + 60) - 7 * (deriveCampaignParameters mp
          (some comparison) bt cw (parsed.getD (now + 60)) now).campaign_weeks)
        (parsed.getD (now + 60)) (extractMovieSignature mp)
        ((deriveCampaignParameters mp (some comparison) bt cw
          (parsed.getD (now + 60)) now).campaign_weeks))
      (parsed.getD (now + 60) - 7 * (deriveCampaignParameters mp
        (some comparison) bt cw (parsed.getD (now + 60)) now).campaign_weeks)
      (parsed.getD (now + 60)) := rfl
  have hcs : plan.campaign_overview.campaign_start =
      parsed.getD (now + 60) - 7 * (deriveCampaignParameters mp (some comparison)
        bt cw (parsed.getD (now + 60)) now).campaign_weeks := rfl
  rw [hpt, hcs]
  exact createTimeline_spec _ _ _ hsr

/-! ### C8 -/

/-- The selection rule as the specification phrases it: the latest phase by
`start_date` (ties broken in favour of the later list position) among the
phases whose start date is on or before `d`. -/
def latestEligible (phases : List Phase) (d : ℤ) : Option Phase :=
  phases.foldl (fun acc p =>
    if p.start_date ≤ d then
      match acc with
      | none => some p
      | some a => if a.start_date ≤ p.start_date then some p else acc
    else acc) none

/-- Every week the timeline loop emits takes its phase name, active regions
and intensity from the phase scan applied at its own start date. -/
theorem createTimelineGo_fields (phases : List Phase) (r : ℤ) :
    ∀ (fuel : ℕ) (c : ℤ) (wk : ℕ), ∀ w ∈ createTimelineGo phases r fuel c wk,
      (w.phase, w.active_regions, w.intensity) =
        match activePhaseFor phases w.start_date with
        | some p => (p.name, p.regions, p.intensity)
        | none => ("Pre-campaign", ([] : List String), "Low") := by
  intro fuel
  induction fuel with
  | zero =>
    intro c wk w hw
    simp [createTimelineGo] at hw
  | succ n ih =>
    intro c wk w hw
    rw [createTimelineGo] at hw
    by_cases hc : c < r
    · rw [if_pos hc] at hw
      rcases List.mem_cons.mp hw with hw1 | hw2
      · subst hw1
        rcases h : activePhaseFor phases c with _ | p <;> simp [h]
      · exact ih _ _ w hw2
    · rw [if_neg hc] at hw
      exact absurd hw (List.not_mem_nil w)

/-- On a run of phases all starting at or after the accumulator, the source's
keep-the-last scan agrees with the latest-by-start-date rule. -/
theorem foldl_active_eq_latest (d : ℤ) :
    ∀ (l : List Phase) (a : Phase),
      List.Pairwise (fun p q => p.start_date ≤ q.start_date) l →
      (∀ q ∈ l, a.start_date ≤ q.start_date) →
      l.foldl (fun acc p => if p.start_date ≤ d then some p else acc) (some a) =
      l.foldl (fun acc p =>
        if p.start_date ≤ d then
          match acc with
          | none => some p
          | some x => if x.start_date ≤ p.start_date then some p else acc
        else acc) (some a) := by
  intro l
  induction l with
  | nil => intro a _ _; rfl
  | cons q rest ih =>
    intro a hpair hle
    simp only [List.foldl_cons]
    by_cases hq : q.start_date ≤ d
    · rw [if_pos hq, if_pos hq, if_pos (hle q (List.mem_cons_self q rest))]
      exact ih q hpair.of_cons (fun x hx => (List.pairwise_cons.mp hpair).1 x hx)
    · rw [if_neg hq, if_neg hq]
      exact ih a hpair.of_cons (fun x hx => hle x (List.mem_cons_of_mem _ hx))

/-- For a phase list sorted (non-strictly) by start date, the source's scan
returns exactly the phase the latest-by-start-date rule selects. -/
theorem activePhaseFor_eq_latestEligible (phases : List Phase) (d : ℤ)
    (hsort : List.Pairwise (fun p q => p.start_date ≤ q.start_date) phases) :
    activePhaseFor phases d = latestEligible phases d := by
  induction phases with
  | nil => rfl
  | cons q rest ih =>
    unfold activePhaseFor latestEligible
    simp only [List.foldl_cons]
    by_cases hq : q.start_date ≤ d
    · simp only [hq, if_true, ite_true]
      exact foldl_active_eq_latest d rest q hsort.of_cons
        (fun x hx => (List.pairwise_cons.mp hsort).1 x hx)
    · simp only [hq, if_false, ite_false]
      exact ih hsort.of_cons

/-- The tier-B offset never exceeds the tier-C offset. -/
theorem offsetFor_B_le_C (tw : ℤ) :
    offsetFor tw 0.35 1 ≤ offsetFor tw 0.65 2 := by
  unfold offsetFor
  by_cases h1 : tw ≤ 1
  · rw [if_pos h1, if_pos (by omega : tw ≤ 2)]
  · by_cases h2 : tw ≤ 2
    · rw [if_neg h1, if_pos h2]
      omega
    · rw [if_neg h1, if_neg h2]
      have hr : pyRound ((tw : ℚ) * 0.35) ≤ pyRound ((tw : ℚ) * 0.65) := by
        by_cases h4 : 4 ≤ tw
        · have b1 := pyRound_le_add_half ((tw : ℚ) * 0.35)
          have b2 := sub_half_le_pyRound ((tw : ℚ) * 0.65)
          have h4q : (4 : ℚ) ≤ (tw : ℚ) := by exact_mod_cast h4
          have hq : (pyRound ((tw : ℚ) * 0.35) : ℚ) ≤
              (pyRound ((tw : ℚ) * 0.65) : ℚ) := by linarith
          exact_mod_cast hq
        · have htw3 : tw = 3 := by omega
          subst htw3
          norm_num [pyRound]
      omega

set_option maxHeartbeats 1000000 in
/-- The phases produced by `_create_phases` are listed in non-decreasing
start-date order for all inputs. -/
theorem createPhases_sorted (ranked : List RegionScore) (s r : ℤ)
    (sig : MovieSignature) (w : ℤ) :
    List.Pairwise (fun p q => p.start_date ≤ q.start_date)
      (createPhases ranked s r sig w) := by
  have h0B := (offsetFor_bounds (max 1 w) 0.35 1 (le_max_left _ _) (by norm_num)).1
  have h0C := (offsetFor_bounds (max 1 w) 0.65 2 (le_max_left _ _) (by norm_num)).1
  have hBC := offsetFor_B_le_C (max 1 w)
  simp only [createPhases]
  split_ifs <;>
    simp only [List.pairwise_cons, List.mem_cons, List.not_mem_nil,
      List.mem_singleton, List.cons_append, List.nil_append, List.append_nil,
      List.singleton_append, List.Pairwise.nil, forall_eq_or_imp, forall_eq,
      IsEmpty.forall_iff, implies_true, and_true, true_and] <;>
    omega

/-- C8: in every plan, each timeline week's phase label, active regions and
intensity come from the latest phase (by start date, ties broken by phase
list order) whose start date is on or before the week's start; if no phase
has started, the week is Pre-campaign with no active regions and Low
intensity. -/
theorem claim_C8_active_phase_rule
    (comparison : RegionComparison) (raw : String) (parsed : Option ℤ)
    (bt : Option ℚ) (cw : Option ℤ) (mp : Option MovieProfile) (now : ℤ) :
    let plan := createRolloutPlan comparison raw parsed bt cw mp now
    ∀ w ∈ plan.timeline,
      (w.phase, w.active_regions, w.intensity) =
        match latestEligible plan.phases w.start_date with
        | some p => (p.name, p.regions, p.intensity)
        | none => ("Pre-campaign", ([] : List String), "Low") := by
  intro plan w hw
  have hsort := createPhases_sorted comparison.ranked_regions
    (parsed.getD (now + 60) - 7 * (deriveCampaignParameters mp (some comparison)
      bt cw (parsed.getD (now + 60)) now).campaign_weeks)
    (parsed.getD (now + 60)) (extractMovieSignature mp)
    ((deriveCampaignParameters mp (some comparison) bt cw
      (parsed.getD (now + 60)) now).campaign_weeks)
  have h1 := createTimelineGo_fields
    (createPhases comparison.ranked_regions
      (parsed.getD (now + 60) - 7 * (deriveCampaignParameters mp (some comparison)
        bt cw (parsed.getD (now + 60)) now).campaign_weeks)
      (parsed.getD (now + 60)) (extractMovieSignature mp)
      ((deriveCampaignParameters mp (some comparison) bt cw
        (parsed.getD (now + 60)) now).campaign_weeks))
    (parsed.getD (now + 60))
    ((parsed.getD (now + 60) - (parsed.getD (now + 60) - 7 *
      (deriveCampaignParameters mp (some comparison) bt cw
        (parsed.getD (now + 60)) now).campaign_weeks)).toNat)
    (parsed.getD (now + 60) - 7 * (deriveCampaignParameters mp (some comparison)
      bt cw (parsed.getD (now + 60)) now).campaign_weeks)
    1 w hw
  rw [activePhaseFor_eq_latestEligible _ _ hsort] at h1
  exact h1

/-- Witness for C8 at a concrete input with no ranked regions: the first
timeline week is a Pre-campaign week and the selection rule returns none. -/
theorem claim_C8_active_phase_rule_witness :
    ({ week := 1, start_date := 86, end_date := 93, phase := "Pre-campaign",
       active_regions := [],
       key_activities := ["Intensify digital ads", "Launch ticket pre-sales",
         "Host premiere events"],
       intensity := "Low" } : TimelineWeek) ∈
      (createRolloutPlan compareRegionsEmpty "not-a-date" none (some 500000)
        (some 2) none 40).timeline ∧
    (("Pre-campaign", ([] : List String), "Low") =
      match latestEligible
        (createRolloutPlan compareRegionsEmpty "not-a-date" none (some 500000)
          (some 2) none 40).phases (86 : ℤ) with
      | some p => (p.name, p.regions, p.intensity)
      | none => ("Pre-campaign", ([] : List String), "Low")) :=
  ⟨by decide,
   claim_C8_active_phase_rule compareRegionsEmpty "not-a-date" none (some 500000)
     (some 2) none 40
     { week := 1, start_date := 86, end_date := 93, phase := "Pre-campaign",
       active_regions := [],
       key_activities := ["Intensify digital ads", "Launch ticket pre-sales",
         "Host premiere events"],
       intensity := "Low" } (by decide)⟩

end TrailerCampaign
